import Mathlib

/-!
Verification of the MayaLiveLink UI plugin (`Source/MayaLiveLinkUI.py`).

The Python module is UI glue: it builds a subject table, wires callbacks to
commands registered by a native plugin, and registers command classes on
plugin load/unload.  We embed the module shallowly:

* host-side calls (`maya.cmds` UI calls, the `LiveLink*` custom commands,
  `MFnPlugin.registerCommand`, scene-message callbacks) become constructors
  of explicit event/trace types; each Python function becomes a Lean
  function from its inputs (plus an environment record holding the values
  the host would return for queries) to the list of calls it issues;
* Python `None`-able query results become `Option (List String)`;
* Python exceptions (`KeyError`, `ValueError`, `TypeError`) become an
  `Option PyError` component of the result;
* the text manipulation done by the endpoints dialog (`str.strip`,
  `str.split(',')`) is embedded over `List Char`.
-/

set_option autoImplicit false

namespace MayaLiveLink

/-- The `StreamTypesPerSubjectType` dict literal (module lines 10-15),
embedded as an association list; Python dict indexing becomes
`List.lookup`. -/
def StreamTypesPerSubjectType : List (String × List String) :=
  [("Prop", ["Root Only", "Full Hierarchy"]),
   ("Character", ["Root Only", "Full Hierarchy"]),
   ("Camera", ["Root Only", "Full Hierarchy", "Camera"]),
   ("Light", ["Root Only", "Full Hierarchy", "Light"])]

/-- Python exceptions that the module can raise. -/
inductive PyError where
  | keyError
  | valueError
  | typeError
  deriving DecidableEq

/-- One fully-built row of the subject table: the per-subject calls issued
by the body of the `PopulateSubjects` loop (button with its
`OnRemoveSubject` callback path, subject-type text, name field, DAG-path
text, the uniquely named column layout, the option-menu items and the
1-based initially selected index). -/
structure SubjectRow where
  subjectName : String
  subjectPath : String
  subjectType : String
  layoutName : String
  menuItems : List String
  selectedIndex : Nat
  deriving DecidableEq

/-- `zip` of four lists, as used by the `PopulateSubjects` loop header. -/
def zip4 {α β γ δ : Type} :
    List α → List β → List γ → List δ → List (α × β × γ × δ)
  | a :: as, b :: bs, c :: cs, d :: ds => (a, b, c, d) :: zip4 as bs cs ds
  | _, _, _, _ => []

/-- The loop body of `PopulateSubjects` (lines 48-87), accumulating
completed rows.  `StreamTypesPerSubjectType[SubjectType]` raising
`KeyError` on a missing key becomes the `none` branch of `List.lookup`;
`list.index` raising `ValueError` becomes the `contains` test; an
exception aborts the loop, returning the rows completed so far. -/
def buildRows (i : Nat) :
    List (String × String × String × String) → List SubjectRow × Option PyError
  | [] => ([], none)
  | (n, p, t, r) :: rest =>
    match List.lookup t StreamTypesPerSubjectType with
    | none => ([], some .keyError)
    | some streamTypes =>
      if streamTypes.contains r then
        let row : SubjectRow :=
          { subjectName := n, subjectPath := p, subjectType := t,
            layoutName := "ColumnLayoutRow_" ++ toString i,
            menuItems := streamTypes,
            selectedIndex := streamTypes.indexOf r + 1 }
        let rec' := buildRows (i + 1) rest
        (row :: rec'.1, rec'.2)
      else ([], some .valueError)

/-- `PopulateSubjects` (lines 42-87).  The four arguments are the results
of the `LiveLinkSubjectNames/Paths/Types/Roles` queries (`none` = Python
`None`).  Only `SubjectPaths` is tested against `None`; `zip` over a
`None` among the others raises `TypeError`. -/
def PopulateSubjects (names paths types roles : Option (List String)) :
    List SubjectRow × Option PyError :=
  match paths with
  | none => ([], none)
  | some ps =>
    match names, types, roles with
    | some ns, some ts, some rs => buildRows 0 (zip4 ns ps ts rs)
    | _, _, _ => ([], some .typeError)

/-- Connection UI colour for the active state (line 104); Python float
literals are embedded as rationals. -/
def ConnectionActiveColour : List ℚ := [71/100, 9/10, 1/10]

/-- Connection UI colour for the inactive state (line 105). -/
def ConnectionInactiveColour : List ℚ := [1, 4/10, 4/10]

/-- The `ConnectionColourMap` dict (lines 106-109). -/
def ConnectionColourMap (connected : Bool) : List ℚ :=
  if connected then ConnectionActiveColour else ConnectionInactiveColour

/-- The host-side values the module reads: whether the
`MayaLiveLinkUI` window exists, the four subject queries, and the
connection status returned by `LiveLinkConnectionStatus`. -/
structure UIEnv where
  windowExists : Bool
  subjectNames : Option (List String)
  subjectPaths : Option (List String)
  subjectTypes : Option (List String)
  subjectRoles : Option (List String)
  connectionText : String
  connectedState : Bool

/-- One call issued against the host by the UI-refresh functions. -/
inductive UICall where
  | liveLinkRemoveSubject (path : String)
  | liveLinkAddSelection
  | deleteUI (name : String)
  | rowColumnLayoutCreate (name : String)
  | headerText (label : String)
  | rowColumnLayoutEdit (name : String)
  | subjectRow (row : SubjectRow)
  | raisedError (e : PyError)
  | queryConnectionStatus
  | editConnectionStatus (label : String) (colour : List ℚ)
  deriving DecidableEq

/-- `CreateSubjectTable` (lines 23-38): returns early when the main window
does not exist, otherwise creates the `SubjectLayout` row-column layout,
its five header texts, and edits the layout's row offset. -/
def CreateSubjectTable (env : UIEnv) : List UICall :=
  if env.windowExists then
    [.rowColumnLayoutCreate "SubjectLayout",
     .headerText "",
     .headerText "Subject Type",
     .headerText "Subject Name",
     .headerText "DAG Path",
     .headerText "Stream Type",
     .rowColumnLayoutEdit "SubjectLayout"]
  else []

/-- The trace of `PopulateSubjects`: one `subjectRow` call per completed
row, then the raised exception if the loop aborted. -/
def PopulateSubjectsCalls (env : UIEnv) : List UICall :=
  let res := PopulateSubjects env.subjectNames env.subjectPaths
    env.subjectTypes env.subjectRoles
  res.1.map .subjectRow ++
    (match res.2 with
     | some e => [.raisedError e]
     | none => [])

/-- `ClearSubjects` (lines 90-92): deletes the `SubjectLayout` UI only
when the main window exists. -/
def ClearSubjects (env : UIEnv) : List UICall :=
  if env.windowExists then [.deleteUI "SubjectLayout"] else []

/-- `RefreshSubjects` (lines 96-100): when the main window exists, deletes
`SubjectLayout`, recreates the table and repopulates it. -/
def RefreshSubjects (env : UIEnv) : List UICall :=
  if env.windowExists then
    .deleteUI "SubjectLayout" :: (CreateSubjectTable env ++ PopulateSubjectsCalls env)
  else []

/-- `OnRemoveSubject` (lines 18-20): issues `LiveLinkRemoveSubject` with
the row's subject path, then refreshes the subject table. -/
def OnRemoveSubject (env : UIEnv) (SubjectPath : String) : List UICall :=
  .liveLinkRemoveSubject SubjectPath :: RefreshSubjects env

/-- `MayaLiveLinkUI.AddSelection` (lines 188-190): issues
`LiveLinkAddSelection`, then refreshes the subject table. -/
def AddSelection (env : UIEnv) : List UICall :=
  .liveLinkAddSelection :: RefreshSubjects env

/-- `MayaLiveLinkRefreshConnectionUI.doIt` (lines 305-311): when the main
window exists, queries `LiveLinkConnectionStatus` and edits the
`ConnectionStatusUI` text with the returned label and mapped colour. -/
def MayaLiveLinkRefreshConnectionUI_doIt (env : UIEnv) : List UICall :=
  if env.windowExists then
    [.queryConnectionStatus,
     .editConnectionStatus env.connectionText (ConnectionColourMap env.connectedState)]
  else []

/-- The two function calls the scene-message callback can make. -/
inductive CallbackAction where
  | clearSubjects
  | createSubjectTable
  deriving DecidableEq

/-- Python `s.startswith(pre)`. -/
def pyStartsWith (s pre : String) : Bool :=
  pre.toList.isPrefixOf s.toList

/-- `AfterPluginUnloadCallback` (lines 320-325): scans the string array;
on the first string starting with `MayaLiveLinkPlugin` it calls
`ClearSubjects()` then `CreateSubjectTable()` and returns. -/
def AfterPluginUnloadCallback : List String → List CallbackAction
  | [] => []
  | s :: rest =>
    if pyStartsWith s "MayaLiveLinkPlugin" then
      [.clearSubjects, .createSubjectTable]
    else AfterPluginUnloadCallback rest

/-- The characters Python `str.strip()` removes (`string.whitespace`,
ASCII). -/
def isPySpace (c : Char) : Bool :=
  c = ' ' || c = '\t' || c = '\n' || c = '\r' || c = Char.ofNat 11 || c = Char.ofNat 12

/-- Removing trailing whitespace, the right half of Python `str.strip()`. -/
def dropTrailingSpaces : List Char → List Char
  | [] => []
  | c :: rest =>
    let r := dropTrailingSpaces rest
    if r = [] && isPySpace c then [] else c :: r

/-- Python `str.strip()` over `List Char`: leading then trailing
whitespace removed. -/
def pyStrip (s : List Char) : List Char :=
  dropTrailingSpaces (s.dropWhile isPySpace)

/-- Python `str.split(',')` over `List Char`: `[] ↦ [[]]`, every comma
starts a new component. -/
def pySplitComma : List Char → List (List Char)
  | [] => [[]]
  | c :: rest =>
    if c = ',' then [] :: pySplitComma rest
    else
      match pySplitComma rest with
      | [] => [[c]]
      | p :: ps => (c :: p) :: ps

/-- The `_OnOk` handler of the endpoints dialog (lines 229-249), minus the
`layoutDialog(dismiss=...)` transport: from the two text-field contents it
computes the dialog result.  An emptied unicast field falls back to
`0.0.0.0:0`; an emptied static field gives `[]`, otherwise the stripped
field text is split on `,` and each element stripped. -/
def dialogOnOk (unicastText staticText : List Char) : List Char × List (List Char) :=
  let newUnicast := pyStrip unicastText
  let newUnicast := if newUnicast = [] then "0.0.0.0:0".toList else newUnicast
  let strippedStatic := pyStrip staticText
  let newStatic :=
    if strippedStatic = [] then []
    else (pySplitComma strippedStatic).map pyStrip
  (newUnicast, newStatic)

/-- A `cmds.LiveLinkMessagingSettings(...)` setter invocation. -/
inductive MessagingCmd where
  | setUnicastEndpoint (endpoint : String)
  | removeStaticEndpoints (endpoints : List String)
  | addStaticEndpoints (endpoints : List String)
  deriving DecidableEq

/-- Python `list(set(a) - set(b))`: the elements of `a` not in `b`,
without duplicates (Python's set order is unspecified; any
duplicate-free list with the right members represents it). -/
def pySetDiff (a b : List String) : List String :=
  (a.filter (fun x => !b.contains x)).dedup

/-- The part of `MayaLiveLinkUI.ShowNetworkEndpointsDialog` after the
dialog returns (lines 261-286).  `UnicastEndpoint`/`StaticEndpoints` are
the settings stored before the dialog was shown; `result` is the parsed
dialog result (`none` for the falsy dismissal string).  A changed unicast
endpoint is set; changed static endpoints are diffed and the removed/added
sets pushed when non-empty. -/
def ShowNetworkEndpointsDialog (UnicastEndpoint : String)
    (StaticEndpoints : List String)
    (result : Option (String × List String)) : List MessagingCmd :=
  match result with
  | none => []
  | some (NewUnicastEndpoint, NewStaticEndpoints) =>
    (if NewUnicastEndpoint ≠ UnicastEndpoint then
       [.setUnicastEndpoint NewUnicastEndpoint]
     else []) ++
    (if NewStaticEndpoints ≠ StaticEndpoints then
       (if pySetDiff StaticEndpoints NewStaticEndpoints ≠ [] then
          [.removeStaticEndpoints (pySetDiff StaticEndpoints NewStaticEndpoints)]
        else []) ++
       (if pySetDiff NewStaticEndpoints StaticEndpoints ≠ [] then
          [.addStaticEndpoints (pySetDiff NewStaticEndpoints StaticEndpoints)]
        else [])
     else [])

/-- The classes in scope in the module: `OpenMayaMPx.MPxCommand`, the
`LiveLinkCommand` base (lines 114-120) and its three subclasses. -/
inductive PyClassId where
  | MPxCommand
  | LiveLinkCommand
  | MayaLiveLinkUI
  | MayaLiveLinkRefreshUI
  | MayaLiveLinkRefreshConnectionUI
  deriving DecidableEq, Fintype

/-- Each class's method resolution order (itself, then its bases); the
three command classes each inherit from `LiveLinkCommand`, which inherits
from `OpenMayaMPx.MPxCommand`. -/
def pyMRO : PyClassId → List PyClassId
  | .MPxCommand => [.MPxCommand]
  | .LiveLinkCommand => [.LiveLinkCommand, .MPxCommand]
  | .MayaLiveLinkUI => [.MayaLiveLinkUI, .LiveLinkCommand, .MPxCommand]
  | .MayaLiveLinkRefreshUI => [.MayaLiveLinkRefreshUI, .LiveLinkCommand, .MPxCommand]
  | .MayaLiveLinkRefreshConnectionUI =>
    [.MayaLiveLinkRefreshConnectionUI, .LiveLinkCommand, .MPxCommand]

/-- Python `issubclass`, via the MRO. -/
def pyIssubclass (a b : PyClassId) : Bool := (pyMRO a).contains b

/-- Each class's `__name__`. -/
def className : PyClassId → String
  | .MPxCommand => "MPxCommand"
  | .LiveLinkCommand => "LiveLinkCommand"
  | .MayaLiveLinkUI => "MayaLiveLinkUI"
  | .MayaLiveLinkRefreshUI => "MayaLiveLinkRefreshUI"
  | .MayaLiveLinkRefreshConnectionUI => "MayaLiveLinkRefreshConnectionUI"

/-- A module-level Python value: a class, or anything else
(functions, modules, dicts, strings, ...), tagged by its name. -/
inductive PyVal where
  | pyClass (c : PyClassId)
  | nonClass (tag : String)
  deriving DecidableEq

/-- `inspect.isclass`. -/
def inspect_isclass : PyVal → Bool
  | .pyClass _ => true
  | .nonClass _ => false

/-- `IsLiveLinkCommand` (lines 124-128): a class that is a subclass of
`LiveLinkCommand` and is not `LiveLinkCommand` itself. -/
def IsLiveLinkCommand (InCls : PyVal) : Bool :=
  inspect_isclass InCls &&
  (match InCls with
   | .pyClass c => pyIssubclass c .LiveLinkCommand
   | .nonClass _ => false) &&
  InCls != .pyClass .LiveLinkCommand

/-- `GetLiveLinkCommandsFromModule` (lines 132-134): evaluate each name
(`evalName` plays `eval`) and keep, in order, the values satisfying
`IsLiveLinkCommand`. -/
def GetLiveLinkCommandsFromModule (evalName : String → PyVal) :
    List String → List PyVal
  | [] => []
  | item :: rest =>
    if IsLiveLinkCommand (evalName item) then
      evalName item :: GetLiveLinkCommandsFromModule evalName rest
    else GetLiveLinkCommandsFromModule evalName rest

/-- `dir()` of the module when line 315 runs: the sorted names of the
imports, the definitions above line 315, and the module dunders. -/
def moduleDir : List String :=
  ["Callback", "CallbackWithArgs", "ClearSubjects", "ConnectionActiveColour",
   "ConnectionColourMap", "ConnectionInactiveColour", "CreateSubjectTable",
   "GetLiveLinkCommandsFromModule", "IsLiveLinkCommand", "LiveLinkCommand",
   "MayaLiveLinkRefreshConnectionUI", "MayaLiveLinkRefreshUI", "MayaLiveLinkUI",
   "OnRemoveSubject", "OpenMaya", "OpenMayaMPx", "PopulateSubjects",
   "RefreshSubjects", "StreamTypesPerSubjectType", "__builtins__", "__doc__",
   "__file__", "__loader__", "__name__", "__package__", "__spec__", "cmds",
   "inspect", "json", "sys"]

/-- `eval` of a module-level name: the four class names evaluate to their
classes; every other name evaluates to a non-class value. -/
def moduleEval (name : String) : PyVal :=
  if name = "LiveLinkCommand" then .pyClass .LiveLinkCommand
  else if name = "MayaLiveLinkUI" then .pyClass .MayaLiveLinkUI
  else if name = "MayaLiveLinkRefreshUI" then .pyClass .MayaLiveLinkRefreshUI
  else if name = "MayaLiveLinkRefreshConnectionUI" then
    .pyClass .MayaLiveLinkRefreshConnectionUI
  else .nonClass name

/-- `Commands = GetLiveLinkCommandsFromModule(dir())` (line 315). -/
def Commands : List PyVal := GetLiveLinkCommandsFromModule moduleEval moduleDir

/-- The `__name__` of a module value (classes only have one here). -/
def pyValName : PyVal → String
  | .pyClass c => className c
  | .nonClass tag => tag

/-- The command names the lifecycle hooks register and deregister. -/
def CommandNames : List String := Commands.map pyValName

/-- An observable step taken by `initializePlugin`/`uninitializePlugin`. -/
inductive PluginEvent where
  | printedLine (s : String)
  | registeredCommand (name : String)
  | wroteStderr (s : String)
  | raisedException
  | addedAfterPluginUnloadCallback (id : Nat)
  | removedCallback (id : Nat)
  | deregisteredCommand (name : String)
  deriving DecidableEq

/-- Host behaviour the lifecycle hooks depend on: which
`registerCommand`/`deregisterCommand` calls raise, and the id
`MSceneMessage.addStringArrayCallback` hands back. -/
structure PluginEnv where
  registerFails : String → Bool
  deregisterFails : String → Bool
  newCallbackId : Nat

/-- The `for Command in Commands` registration loop of `initializePlugin`
(lines 333-340): per command, print the banner line, then register; a
failing registration writes stderr and re-raises, aborting the loop (the
`Bool` is `false` when an exception escaped). -/
def registerCommandsLoop (env : PluginEnv) : List String → List PluginEvent × Bool
  | [] => ([], true)
  | n :: rest =>
    if env.registerFails n then
      ([.printedLine ("\tRegistering Command \x27" ++ n ++ "\x27"),
        .wroteStderr ("Failed to register command: " ++ n ++ "\n"),
        .raisedException], false)
    else
      let tail' := registerCommandsLoop env rest
      (.printedLine ("\tRegistering Command \x27" ++ n ++ "\x27") ::
        .registeredCommand n :: tail'.1, tail'.2)

/-- `initializePlugin` (lines 329-346): prints the header, registers every
command in `Commands`, then (when no registration raised) subscribes the
`kAfterPluginUnload` string-array callback, storing its id in the global
`AfterPluginUnloadCallbackId` (the `Option Nat` state). -/
def initializePlugin (env : PluginEnv) (callbackId : Option Nat) :
    List PluginEvent × Option Nat :=
  let loop := registerCommandsLoop env CommandNames
  if loop.2 then
    (.printedLine "LiveLink:" :: loop.1 ++
       [.addedAfterPluginUnloadCallback env.newCallbackId],
     some env.newCallbackId)
  else (.printedLine "LiveLink:" :: loop.1, callbackId)

/-- The deregistration loop of `uninitializePlugin` (lines 358-363): a
failing deregistration only writes stderr; the loop always continues. -/
def deregisterCommandsLoop (env : PluginEnv) : List String → List PluginEvent
  | [] => []
  | n :: rest =>
    (if env.deregisterFails n then
       [.wroteStderr ("Failed to unregister command: " ++ n ++ "\n")]
     else [.deregisteredCommand n]) ++
    deregisterCommandsLoop env rest

/-- `uninitializePlugin` (lines 350-363): removes the scene callback when
one is stored (resetting the global id to `none`), then deregisters every
command in `Commands`. -/
def uninitializePlugin (env : PluginEnv) (callbackId : Option Nat) :
    List PluginEvent × Option Nat :=
  match callbackId with
  | some id => (.removedCallback id :: deregisterCommandsLoop env CommandNames, none)
  | none => (deregisterCommandsLoop env CommandNames, none)

end MayaLiveLink

namespace MayaLiveLink

/-- Claim C3: every subject type mapped by `StreamTypesPerSubjectType`
(`Prop`, `Character`, `Camera`, `Light`, and no others) has a non-empty
stream-type list containing `Root Only` and `Full Hierarchy`; `Camera`
additionally maps `Camera` and `Light` additionally maps `Light`. -/
theorem streamTypes_table_spec :
    (∀ t l, List.lookup t StreamTypesPerSubjectType = some l →
      l ≠ [] ∧ "Root Only" ∈ l ∧ "Full Hierarchy" ∈ l) ∧
    (∀ l, List.lookup "Camera" StreamTypesPerSubjectType = some l → "Camera" ∈ l) ∧
    (∀ l, List.lookup "Light" StreamTypesPerSubjectType = some l → "Light" ∈ l) ∧
    (∀ t, (List.lookup t StreamTypesPerSubjectType).isSome = true ↔
      t ∈ ["Prop", "Character", "Camera", "Light"]) := by
  refine ⟨?_, ?_, ?_, ?_⟩
  · intro t l h
    simp only [StreamTypesPerSubjectType, List.lookup] at h
    repeat' split at h
    all_goals first
      | exact Option.noConfusion h
      | (cases h; simp_all)
  · intro l h
    simp only [StreamTypesPerSubjectType, List.lookup] at h
    repeat' split at h
    all_goals first
      | exact Option.noConfusion h
      | (cases h; simp_all)
  · intro l h
    simp only [StreamTypesPerSubjectType, List.lookup] at h
    repeat' split at h
    all_goals first
      | exact Option.noConfusion h
      | (cases h; simp_all)
  · intro t
    simp only [StreamTypesPerSubjectType, List.lookup]
    repeat' split
    all_goals simp_all

/-- Witness for C3 at the four concrete keys and a fifth unmapped one. -/
theorem streamTypes_table_spec_witness :
    "Root Only" ∈ ["Root Only", "Full Hierarchy", "Camera"] ∧
    ¬ (List.lookup "Transform" StreamTypesPerSubjectType).isSome = true := by
  constructor
  · exact (streamTypes_table_spec.1 "Camera" _ (by decide)).2.1
  · intro h
    have := (streamTypes_table_spec.2.2.2 "Transform").mp h
    simp at this

/-- Helper for C6: the callback's scan is equivalent to an `any` test. -/
theorem afterPluginUnload_eq_ite (arr : List String) :
    AfterPluginUnloadCallback arr =
      if arr.any (fun s => pyStartsWith s "MayaLiveLinkPlugin") then
        [CallbackAction.clearSubjects, CallbackAction.createSubjectTable]
      else [] := by
  induction arr with
  | nil => rfl
  | cons s rest ih =>
    simp only [AfterPluginUnloadCallback, List.any_cons]
    by_cases h : pyStartsWith s "MayaLiveLinkPlugin" <;> simp [h, ih]

/-- Claim C6: `AfterPluginUnloadCallback` clears and recreates the subject
table iff some delivered string starts with `MayaLiveLinkPlugin`, and does
so at most once per invocation (it returns after the first match). -/
theorem afterPluginUnload_spec (arr : List String) :
    (AfterPluginUnloadCallback arr =
        [CallbackAction.clearSubjects, CallbackAction.createSubjectTable] ↔
      ∃ s ∈ arr, pyStartsWith s "MayaLiveLinkPlugin" = true) ∧
    ((¬ ∃ s ∈ arr, pyStartsWith s "MayaLiveLinkPlugin" = true) →
      AfterPluginUnloadCallback arr = []) ∧
    (AfterPluginUnloadCallback arr).count CallbackAction.clearSubjects ≤ 1 ∧
    (AfterPluginUnloadCallback arr).count CallbackAction.createSubjectTable ≤ 1 := by
  have hany : (arr.any (fun s => pyStartsWith s "MayaLiveLinkPlugin") = true) ↔
      ∃ s ∈ arr, pyStartsWith s "MayaLiveLinkPlugin" = true := List.any_eq_true
  rw [afterPluginUnload_eq_ite]
  by_cases h : arr.any (fun s => pyStartsWith s "MayaLiveLinkPlugin") = true
  · rw [if_pos h]
    exact ⟨⟨fun _ => hany.mp h, fun _ => rfl⟩, fun hn => absurd (hany.mp h) hn,
      by decide, by decide⟩
  · rw [if_neg h]
    refine ⟨⟨fun heq => ?_, fun hex => absurd (hany.mpr hex) h⟩, fun _ => rfl,
      by simp, by simp⟩
    exact absurd heq (by simp)

/-- Witness for C6 on concrete arrays with and without a match. -/
theorem afterPluginUnload_spec_witness :
    AfterPluginUnloadCallback ["otherPlugin", "MayaLiveLinkPluginMaya2020"] =
      [CallbackAction.clearSubjects, CallbackAction.createSubjectTable] ∧
    AfterPluginUnloadCallback ["otherPlugin"] = [] := by
  constructor
  · exact (afterPluginUnload_spec ["otherPlugin", "MayaLiveLinkPluginMaya2020"]).1.mpr
      ⟨"MayaLiveLinkPluginMaya2020", by decide, by decide⟩
  · exact (afterPluginUnload_spec ["otherPlugin"]).2.1 (by decide)

/-- Claim C9: when the `MayaLiveLinkUI` window does not exist,
`CreateSubjectTable`, `ClearSubjects`, `RefreshSubjects` and
`MayaLiveLinkRefreshConnectionUI.doIt` issue no host call at all. -/
theorem window_guard_spec (env : UIEnv) (h : env.windowExists = false) :
    CreateSubjectTable env = [] ∧ ClearSubjects env = [] ∧
    RefreshSubjects env = [] ∧ MayaLiveLinkRefreshConnectionUI_doIt env = [] := by
  simp [CreateSubjectTable, ClearSubjects, RefreshSubjects,
    MayaLiveLinkRefreshConnectionUI_doIt, h]

/-- Witness for C9 at a concrete window-less environment. -/
theorem window_guard_spec_witness :
    RefreshSubjects ⟨false, none, none, none, none, "No Connection", false⟩ = [] ∧
    MayaLiveLinkRefreshConnectionUI_doIt
      ⟨false, none, none, none, none, "No Connection", false⟩ = [] := by
  have h := window_guard_spec ⟨false, none, none, none, none, "No Connection", false⟩ rfl
  exact ⟨h.2.2.1, h.2.2.2⟩

/-- Helper for C7: a subject-table refresh never itself issues a
`LiveLinkRemoveSubject` or `LiveLinkAddSelection` command. -/
theorem liveLink_cmd_not_in_refresh (env : UIEnv) (p : String) :
    UICall.liveLinkRemoveSubject p ∉ RefreshSubjects env ∧
    UICall.liveLinkAddSelection ∉ RefreshSubjects env := by
  by_cases hw : env.windowExists <;>
    simp only [RefreshSubjects, CreateSubjectTable, PopulateSubjectsCalls, hw] <;>
    cases herr : (PopulateSubjects env.subjectNames env.subjectPaths
      env.subjectTypes env.subjectRoles).2 <;>
    simp [herr]

/-- Claim C7: `OnRemoveSubject` issues exactly one `LiveLinkRemoveSubject`
command carrying the given subject path and then performs the subject
refresh; `AddSelection` issues exactly one `LiveLinkAddSelection` command
and then performs the subject refresh. -/
theorem subject_passthrough_spec (env : UIEnv) (SubjectPath : String) :
    OnRemoveSubject env SubjectPath =
      UICall.liveLinkRemoveSubject SubjectPath :: RefreshSubjects env ∧
    (OnRemoveSubject env SubjectPath).count (UICall.liveLinkRemoveSubject SubjectPath) = 1 ∧
    AddSelection env = UICall.liveLinkAddSelection :: RefreshSubjects env ∧
    (AddSelection env).count UICall.liveLinkAddSelection = 1 := by
  have h := liveLink_cmd_not_in_refresh env SubjectPath
  refine ⟨rfl, ?_, rfl, ?_⟩
  · simp [OnRemoveSubject, List.count_cons, List.count_eq_zero.mpr h.1]
  · simp [AddSelection, List.count_cons, List.count_eq_zero.mpr h.2]

/-- Witness for C7 at a concrete environment and subject path. -/
theorem subject_passthrough_spec_witness :
    OnRemoveSubject ⟨false, none, none, none, none, "", false⟩ "|pCube1" =
      [UICall.liveLinkRemoveSubject "|pCube1"] ∧
    AddSelection ⟨false, none, none, none, none, "", false⟩ =
      [UICall.liveLinkAddSelection] := by
  have h := subject_passthrough_spec ⟨false, none, none, none, none, "", false⟩ "|pCube1"
  constructor
  · rw [h.1]; decide
  · rw [h.2.2.1]; decide

/-- A whitespace character is not a comma. -/
theorem isPySpace_ne_comma {c : Char} (h : isPySpace c = true) : c ≠ ',' := by
  intro hc
  subst hc
  exact absurd h (by decide)

/-- `pySplitComma` always returns at least one component. -/
theorem pySplitComma_ne_nil : ∀ l, pySplitComma l ≠ [] := by
  intro l
  cases l with
  | nil => simp [pySplitComma]
  | cons c rest =>
    simp only [pySplitComma]
    split
    · simp
    · cases h : pySplitComma rest <;> simp

/-- Appending a trailing whitespace character does not change
`dropTrailingSpaces`. -/
theorem dropTrailingSpaces_append_space {c : Char} (hc : isPySpace c = true) :
    ∀ p, dropTrailingSpaces (p ++ [c]) = dropTrailingSpaces p := by
  intro p
  induction p with
  | nil => simp [dropTrailingSpaces, hc]
  | cons x p ih => simp [dropTrailingSpaces, ih]

/-- `dropTrailingSpaces` keeps a list ending in a non-whitespace
character unchanged. -/
theorem dropTrailingSpaces_append_nonspace {c : Char} (hc : isPySpace c = false) :
    ∀ p, dropTrailingSpaces (p ++ [c]) = p ++ [c] := by
  intro p
  induction p with
  | nil => simp [dropTrailingSpaces, hc]
  | cons x p ih =>
    have hne : p ++ [c] ≠ [] := by simp
    simp [dropTrailingSpaces, ih, hne]

/-- `pyStrip` ignores a leading whitespace character. -/
theorem pyStrip_cons_space {c : Char} (hc : isPySpace c = true) (q : List Char) :
    pyStrip (c :: q) = pyStrip q := by
  simp [pyStrip, List.dropWhile_cons, hc]

/-- `pyStrip` ignores a trailing whitespace character. -/
theorem pyStrip_append_space {c : Char} (hc : isPySpace c = true) (q : List Char) :
    pyStrip (q ++ [c]) = pyStrip q := by
  simp only [pyStrip]
  induction q with
  | nil => simp [List.dropWhile_cons, hc, dropTrailingSpaces]
  | cons x q ih =>
    by_cases hx : isPySpace x
    · simpa [List.dropWhile_cons, hx] using ih
    · simp only [List.cons_append, List.dropWhile_cons_of_neg hx]
      rw [show x :: (q ++ [c]) = (x :: q) ++ [c] from rfl,
        dropTrailingSpaces_append_space hc]

/-- The last component of a split, extended by one character (the shape
`pySplitComma (xs ++ [c])` takes for non-comma `c`). -/
def appendLast : List (List Char) → Char → List (List Char)
  | [], c => [[c]]
  | [p], c => [p ++ [c]]
  | p :: q :: ps, c => p :: appendLast (q :: ps) c

/-- Unfolding `pySplitComma` at a comma. -/
theorem pySplitComma_cons_comma (rest : List Char) :
    pySplitComma (',' :: rest) = [] :: pySplitComma rest := by
  simp [pySplitComma]

/-- Unfolding `pySplitComma` at a non-comma head. -/
theorem pySplitComma_cons_ne {x : Char} (hx : ¬x = ',') (rest q : List Char)
    (qs : List (List Char)) (h : pySplitComma rest = q :: qs) :
    pySplitComma (x :: rest) = (x :: q) :: qs := by
  simp only [pySplitComma, if_neg hx, h]

/-- Splitting after appending a non-comma character extends the final
component. -/
theorem pySplitComma_append_nonComma {c : Char} (hc : ¬c = ',') :
    ∀ xs, pySplitComma (xs ++ [c]) = appendLast (pySplitComma xs) c := by
  intro xs
  induction xs with
  | nil => simp [pySplitComma, hc, appendLast]
  | cons x xs ih =>
    cases h : pySplitComma xs with
    | nil => exact absurd h (pySplitComma_ne_nil xs)
    | cons q qs =>
      have hsplit : pySplitComma (xs ++ [c]) = appendLast (q :: qs) c := by
        rw [ih, h]
      by_cases hx : x = ','
      · subst hx
        show pySplitComma (',' :: (xs ++ [c])) = appendLast (pySplitComma (',' :: xs)) c
        rw [pySplitComma_cons_comma, pySplitComma_cons_comma, hsplit, h]
        rfl
      · show pySplitComma (x :: (xs ++ [c])) = appendLast (pySplitComma (x :: xs)) c
        cases qs with
        | nil =>
          rw [pySplitComma_cons_ne hx (xs ++ [c]) (q ++ [c]) [] (by rw [hsplit]; rfl),
            pySplitComma_cons_ne hx xs q [] h]
          rfl
        | cons q2 qs2 =>
          rw [pySplitComma_cons_ne hx (xs ++ [c]) q (appendLast (q2 :: qs2) c)
              (by rw [hsplit]; rfl),
            pySplitComma_cons_ne hx xs q (q2 :: qs2) h]
          rfl

/-- Extending the final split component by a whitespace character does not
change the stripped components. -/
theorem map_pyStrip_appendLast {c : Char} (hc : isPySpace c = true) :
    ∀ ps, ps ≠ [] → (appendLast ps c).map pyStrip = ps.map pyStrip := by
  intro ps
  induction ps with
  | nil => intro h; exact absurd rfl h
  | cons p qs ih =>
    intro _
    cases qs with
    | nil => simp [appendLast, pyStrip_append_space hc]
    | cons q qs2 =>
      have := ih (by simp)
      simp only [appendLast, List.map_cons] at this ⊢
      rw [this]

/-- Dropping leading whitespace before splitting does not change the
stripped components. -/
theorem map_pyStrip_split_dropLeading :
    ∀ l : List Char,
      ((pySplitComma (l.dropWhile isPySpace)).map pyStrip) =
        (pySplitComma l).map pyStrip := by
  intro l
  induction l with
  | nil => rfl
  | cons c l ih =>
    by_cases hc : isPySpace c
    · rw [List.dropWhile_cons_of_pos hc, ih]
      have hcomma : ¬c = ',' := isPySpace_ne_comma hc
      simp only [pySplitComma, if_neg hcomma]
      cases h : pySplitComma l with
      | nil => exact absurd h (pySplitComma_ne_nil l)
      | cons q qs => simp [pyStrip_cons_space hc]
    · rw [List.dropWhile_cons_of_neg hc]

/-- Dropping trailing whitespace before splitting does not change the
stripped components. -/
theorem map_pyStrip_split_dropTrailing :
    ∀ l : List Char,
      ((pySplitComma (dropTrailingSpaces l)).map pyStrip) =
        (pySplitComma l).map pyStrip := by
  intro l
  induction l using List.reverseRecOn with
  | nil => rfl
  | append_singleton p c ih =>
    by_cases hc : isPySpace c
    · rw [dropTrailingSpaces_append_space hc, ih,
        pySplitComma_append_nonComma (isPySpace_ne_comma hc),
        map_pyStrip_appendLast hc _ (pySplitComma_ne_nil p)]
    · rw [dropTrailingSpaces_append_nonspace (Bool.not_eq_true _ ▸ hc)]

/-- Splitting the stripped text and stripping each piece is the same as
splitting the raw text and stripping each piece. -/
theorem map_pyStrip_split_strip (l : List Char) :
    (pySplitComma (pyStrip l)).map pyStrip = (pySplitComma l).map pyStrip := by
  rw [show pyStrip l = dropTrailingSpaces (l.dropWhile isPySpace) from rfl,
    map_pyStrip_split_dropTrailing, map_pyStrip_split_dropLeading]

/-- Claim C8: in the dialog's Ok handler, an all-whitespace unicast field
yields the default `0.0.0.0:0` (and otherwise the stripped field text);
an all-whitespace static field yields no static endpoints, and otherwise
the static list is the field text split on `,` with every element
stripped. -/
theorem dialog_onOk_spec (unicastText staticText : List Char) :
    (pyStrip unicastText = [] →
      (dialogOnOk unicastText staticText).1 = "0.0.0.0:0".toList) ∧
    (pyStrip unicastText ≠ [] →
      (dialogOnOk unicastText staticText).1 = pyStrip unicastText) ∧
    (pyStrip staticText = [] → (dialogOnOk unicastText staticText).2 = []) ∧
    (pyStrip staticText ≠ [] →
      (dialogOnOk unicastText staticText).2 = (pySplitComma staticText).map pyStrip) := by
  refine ⟨fun h => ?_, fun h => ?_, fun h => ?_, fun h => ?_⟩
  · simp [dialogOnOk, h]
  · simp [dialogOnOk, h]
  · simp [dialogOnOk, h]
  · simp only [dialogOnOk, if_neg h]
    exact map_pyStrip_split_strip staticText

/-- Witness for C8 on concrete field contents. -/
theorem dialog_onOk_spec_witness :
    (dialogOnOk "  ".toList "u".toList).1 = "0.0.0.0:0".toList ∧
    (dialogOnOk "u".toList " \t ".toList).2 = [] ∧
    (dialogOnOk "u".toList " a , b,c ".toList).2 =
      ["a".toList, "b".toList, "c".toList] := by
  refine ⟨(dialog_onOk_spec _ _).1 (by decide), (dialog_onOk_spec _ _).2.2.1 (by decide), ?_⟩
  rw [(dialog_onOk_spec "u".toList " a , b,c ".toList).2.2.2 (by decide)]
  decide

/-- Claim C5: `IsLiveLinkCommand` holds exactly of classes that are strict
subclasses of `LiveLinkCommand`; `GetLiveLinkCommandsFromModule` keeps, in
order, exactly the evaluated items satisfying it; and `Commands` is
therefore exactly the three UI command classes of the module. -/
theorem liveLinkCommands_collection_spec :
    (∀ v : PyVal, IsLiveLinkCommand v = true ↔
      (inspect_isclass v = true ∧
       (∃ c, v = PyVal.pyClass c ∧ pyIssubclass c .LiveLinkCommand = true) ∧
       v ≠ PyVal.pyClass .LiveLinkCommand)) ∧
    (∀ (evalName : String → PyVal) (items : List String),
      GetLiveLinkCommandsFromModule evalName items =
        (items.map evalName).filter IsLiveLinkCommand) ∧
    Commands = [PyVal.pyClass .MayaLiveLinkRefreshConnectionUI,
                PyVal.pyClass .MayaLiveLinkRefreshUI,
                PyVal.pyClass .MayaLiveLinkUI] := by
  refine ⟨?_, ?_, ?_⟩
  · intro v
    cases v with
    | pyClass c => cases c <;> decide
    | nonClass tag => simp [IsLiveLinkCommand, inspect_isclass]
  · intro evalName items
    induction items with
    | nil => rfl
    | cons item rest ih =>
      simp only [GetLiveLinkCommandsFromModule, List.map_cons, List.filter_cons]
      by_cases h : IsLiveLinkCommand (evalName item) <;> simp [h, ih]
  · decide

/-- Witness for C5 at concrete module values. -/
theorem liveLinkCommands_collection_spec_witness :
    IsLiveLinkCommand (PyVal.pyClass .MayaLiveLinkUI) = true ∧
    IsLiveLinkCommand (PyVal.pyClass .LiveLinkCommand) = false ∧
    IsLiveLinkCommand (PyVal.nonClass "OnRemoveSubject") = false := by
  refine ⟨(liveLinkCommands_collection_spec.1 _).mpr
    ⟨by decide, ⟨.MayaLiveLinkUI, rfl, by decide⟩, by decide⟩, ?_, ?_⟩
  · cases hb : IsLiveLinkCommand (PyVal.pyClass .LiveLinkCommand) with
    | false => rfl
    | true =>
      obtain ⟨-, -, hne⟩ := (liveLinkCommands_collection_spec.1 _).mp hb
      exact absurd rfl hne
  · cases hb : IsLiveLinkCommand (PyVal.nonClass "OnRemoveSubject") with
    | false => rfl
    | true =>
      obtain ⟨hcl, -, -⟩ := (liveLinkCommands_collection_spec.1 _).mp hb
      exact Bool.noConfusion hcl

/-- Helper for C2: the registration loop over a list of commands none of
which fails to register. -/
theorem registerCommandsLoop_ok (env : PluginEnv) :
    ∀ names, (∀ n ∈ names, env.registerFails n = false) →
      registerCommandsLoop env names =
        (names.flatMap (fun n =>
          [PluginEvent.printedLine ("\tRegistering Command \x27" ++ n ++ "\x27"),
           PluginEvent.registeredCommand n]), true) := by
  intro names
  induction names with
  | nil => intro _; rfl
  | cons n rest ih =>
    intro h
    have hn : env.registerFails n = false := h n (by simp)
    have hrest := ih (fun m hm => h m (by simp [hm]))
    simp [registerCommandsLoop, hn, hrest]

/-- Helper for C2: the deregistration loop over a list of commands none of
which fails to deregister. -/
theorem deregisterCommandsLoop_ok (env : PluginEnv) :
    ∀ names, (∀ n ∈ names, env.deregisterFails n = false) →
      deregisterCommandsLoop env names = names.map PluginEvent.deregisteredCommand := by
  intro names
  induction names with
  | nil => intro _; rfl
  | cons n rest ih =>
    intro h
    have hn : env.deregisterFails n = false := h n (by simp)
    simp [deregisterCommandsLoop, hn, ih (fun m hm => h m (by simp [hm]))]

/-- Helper for C2: the deregistration loop never removes a callback,
whatever the host does. -/
theorem removedCallback_not_in_deregisterLoop (env : PluginEnv) (i : Nat) :
    ∀ names, PluginEvent.removedCallback i ∉ deregisterCommandsLoop env names := by
  intro names
  induction names with
  | nil => simp [deregisterCommandsLoop]
  | cons n rest ih =>
    by_cases h : env.deregisterFails n <;> simp [deregisterCommandsLoop, h, ih]

/-- Helper for C2: the successful registration trace contains no
callback-subscription event. -/
theorem addedCallback_not_in_bind (id : Nat) :
    ∀ names : List String,
      PluginEvent.addedAfterPluginUnloadCallback id ∉
        names.flatMap (fun n =>
          [PluginEvent.printedLine ("\tRegistering Command \x27" ++ n ++ "\x27"),
           PluginEvent.registeredCommand n]) := by
  intro names
  induction names with
  | nil => simp
  | cons n rest ih => simp [ih]

/-- Claim C2: when no host registration call fails, `initializePlugin`
registers a command for every class in `Commands` (in order) and then
subscribes exactly one `kAfterPluginUnload` callback, storing its id;
`uninitializePlugin` removes the stored callback when there is one
(resetting the stored id to `none`), never removes one otherwise, and
deregisters every class in `Commands`. -/
theorem plugin_lifecycle_spec (env : PluginEnv) (cid : Option Nat) (id : Nat)
    (hreg : ∀ n ∈ CommandNames, env.registerFails n = false)
    (hdereg : ∀ n ∈ CommandNames, env.deregisterFails n = false) :
    initializePlugin env cid =
      (PluginEvent.printedLine "LiveLink:" ::
        (CommandNames.flatMap (fun n =>
          [PluginEvent.printedLine ("\tRegistering Command \x27" ++ n ++ "\x27"),
           PluginEvent.registeredCommand n])) ++
        [PluginEvent.addedAfterPluginUnloadCallback env.newCallbackId],
       some env.newCallbackId) ∧
    (initializePlugin env cid).1.count
      (PluginEvent.addedAfterPluginUnloadCallback env.newCallbackId) = 1 ∧
    (∀ n ∈ CommandNames,
      PluginEvent.registeredCommand n ∈ (initializePlugin env cid).1) ∧
    uninitializePlugin env (some id) =
      (PluginEvent.removedCallback id :: deregisterCommandsLoop env CommandNames,
       none) ∧
    (uninitializePlugin env none).2 = none ∧
    (∀ i, PluginEvent.removedCallback i ∉ (uninitializePlugin env none).1) ∧
    (∀ n ∈ CommandNames,
      PluginEvent.deregisteredCommand n ∈ (uninitializePlugin env (some id)).1 ∧
      PluginEvent.deregisteredCommand n ∈ (uninitializePlugin env none).1) := by
  have hloop := registerCommandsLoop_ok env CommandNames hreg
  have hinit : initializePlugin env cid =
      (PluginEvent.printedLine "LiveLink:" ::
        (CommandNames.flatMap (fun n =>
          [PluginEvent.printedLine ("\tRegistering Command \x27" ++ n ++ "\x27"),
           PluginEvent.registeredCommand n])) ++
        [PluginEvent.addedAfterPluginUnloadCallback env.newCallbackId],
       some env.newCallbackId) := by
    simp [initializePlugin, hloop]
  have hdloop := deregisterCommandsLoop_ok env CommandNames hdereg
  refine ⟨hinit, ?_, ?_, rfl, rfl, ?_, ?_⟩
  · rw [hinit]
    simp [List.count_cons, List.count_append,
      List.count_eq_zero.mpr (addedCallback_not_in_bind env.newCallbackId CommandNames)]
  · intro n hn
    rw [hinit]
    refine List.mem_cons_of_mem _ (List.mem_append_left _ ?_)
    exact List.mem_flatMap.mpr ⟨n, hn, by simp⟩
  · intro i
    exact removedCallback_not_in_deregisterLoop env i CommandNames
  · intro n hn
    constructor
    · simp only [uninitializePlugin, List.mem_cons, hdloop]
      exact Or.inr (List.mem_map_of_mem _ hn)
    · simp only [uninitializePlugin, hdloop]
      exact List.mem_map_of_mem _ hn

/-- Witness for C2 at a concrete, never-failing host environment. -/
theorem plugin_lifecycle_spec_witness :
    (initializePlugin ⟨fun _ => false, fun _ => false, 7⟩ none).2 = some 7 ∧
    uninitializePlugin ⟨fun _ => false, fun _ => false, 7⟩ (some 5) =
      ([PluginEvent.removedCallback 5,
        PluginEvent.deregisteredCommand "MayaLiveLinkRefreshConnectionUI",
        PluginEvent.deregisteredCommand "MayaLiveLinkRefreshUI",
        PluginEvent.deregisteredCommand "MayaLiveLinkUI"], none) := by
  have h := plugin_lifecycle_spec ⟨fun _ => false, fun _ => false, 7⟩ none 5
    (fun n _ => rfl) (fun n _ => rfl)
  constructor
  · rw [h.1]
  · rw [h.2.2.2.1]
    decide

/-- Membership in the Python set difference. -/
theorem pySetDiff_mem (a b : List String) (x : String) :
    x ∈ pySetDiff a b ↔ x ∈ a ∧ x ∉ b := by
  simp [pySetDiff, List.mem_dedup, List.mem_filter]

/-- The set difference of a list with itself is empty. -/
theorem pySetDiff_self (a : List String) : pySetDiff a a = [] := by
  have h : a.filter (fun x => !a.contains x) = [] := by
    rw [List.filter_eq_nil_iff]
    intro x hx
    simp [hx]
  simp [pySetDiff, h]

/-- Claim C1: after a confirmed endpoints dialog, the unicast setter is
issued iff the new unicast endpoint differs from the stored one; a
remove-endpoint command is issued exactly with (old minus new) when that
set difference is non-empty, an add-endpoint command exactly with (new
minus old) when non-empty; and equal settings issue no
`LiveLinkMessagingSettings` setter at all (a dismissed dialog issues
nothing either). -/
theorem showNetworkEndpointsDialog_spec (u : String) (s : List String)
    (nu : String) (ns : List String) :
    (ShowNetworkEndpointsDialog u s none = []) ∧
    ((∃ e, MessagingCmd.setUnicastEndpoint e ∈
        ShowNetworkEndpointsDialog u s (some (nu, ns))) ↔ nu ≠ u) ∧
    (MessagingCmd.setUnicastEndpoint nu ∈
        ShowNetworkEndpointsDialog u s (some (nu, ns)) ↔ nu ≠ u) ∧
    (∀ es, MessagingCmd.removeStaticEndpoints es ∈
        ShowNetworkEndpointsDialog u s (some (nu, ns)) ↔
      (es = pySetDiff s ns ∧ pySetDiff s ns ≠ [])) ∧
    (∀ es, MessagingCmd.addStaticEndpoints es ∈
        ShowNetworkEndpointsDialog u s (some (nu, ns)) ↔
      (es = pySetDiff ns s ∧ pySetDiff ns s ≠ [])) ∧
    (∀ x, x ∈ pySetDiff s ns ↔ (x ∈ s ∧ x ∉ ns)) ∧
    (nu = u → ns = s → ShowNetworkEndpointsDialog u s (some (nu, ns)) = []) := by
  refine ⟨rfl, ?_, ?_, ?_, ?_, pySetDiff_mem s ns, ?_⟩
  · simp only [ShowNetworkEndpointsDialog]
    split_ifs <;> simp_all
  · simp only [ShowNetworkEndpointsDialog]
    split_ifs <;> simp_all
  · intro es
    simp only [ShowNetworkEndpointsDialog]
    split_ifs <;> simp_all [pySetDiff_self]
  · intro es
    simp only [ShowNetworkEndpointsDialog]
    split_ifs <;> simp_all [pySetDiff_self]
  · intro h1 h2
    subst h1
    subst h2
    simp [ShowNetworkEndpointsDialog]

/-- Witness for C1 at concrete endpoint settings. -/
theorem showNetworkEndpointsDialog_spec_witness :
    ShowNetworkEndpointsDialog "0.0.0.0:0" ["1.2.3.4:0"]
      (some ("0.0.0.0:0", ["1.2.3.4:0"])) = [] ∧
    MessagingCmd.removeStaticEndpoints ["1.2.3.4:0"] ∈
      ShowNetworkEndpointsDialog "0.0.0.0:0" ["1.2.3.4:0"]
        (some ("0.0.0.0:0", [])) ∧
    MessagingCmd.setUnicastEndpoint "10.0.0.1:0" ∈
      ShowNetworkEndpointsDialog "0.0.0.0:0" []
        (some ("10.0.0.1:0", [])) := by
  refine ⟨(showNetworkEndpointsDialog_spec "0.0.0.0:0" ["1.2.3.4:0"] "0.0.0.0:0"
      ["1.2.3.4:0"]).2.2.2.2.2.2 rfl rfl, ?_, ?_⟩
  · exact ((showNetworkEndpointsDialog_spec "0.0.0.0:0" ["1.2.3.4:0"] "0.0.0.0:0"
      []).2.2.2.1 ["1.2.3.4:0"]).mpr ⟨by decide, by decide⟩
  · exact ((showNetworkEndpointsDialog_spec "0.0.0.0:0" [] "10.0.0.1:0"
      []).2.2.1).mpr (by decide)

/-- Helper for C4/C10: each completed row of the subject table comes from
the tuple at the same position, with successful dict lookup and role
index, and carries the running row counter in its layout name. -/
theorem buildRows_get :
    ∀ (l : List (String × String × String × String)) (k i : Nat) (row : SubjectRow),
      ((buildRows k l).1)[i]? = some row →
      ∃ n p t r sts, l[i]? = some (n, p, t, r) ∧
        List.lookup t StreamTypesPerSubjectType = some sts ∧
        sts.contains r = true ∧
        row = { subjectName := n, subjectPath := p, subjectType := t,
                layoutName := "ColumnLayoutRow_" ++ toString (k + i),
                menuItems := sts, selectedIndex := sts.indexOf r + 1 } := by
  intro l
  induction l with
  | nil =>
    intro k i row h
    simp [buildRows] at h
  | cons x rest ih =>
    intro k i row h
    obtain ⟨n, p, t, r⟩ := x
    simp only [buildRows] at h
    split at h
    · simp at h
    · rename_i sts heq
      split at h
      · rename_i hc
        cases i with
        | zero =>
          simp only [List.getElem?_cons_zero, Option.some.injEq] at h
          exact ⟨n, p, t, r, sts, by simp, heq, hc, h.symm⟩
        | succ j =>
          simp only [List.getElem?_cons_succ] at h
          obtain ⟨n2, p2, t2, r2, sts2, hl2, hlk2, hc2, hrow⟩ := ih (k + 1) j row h
          refine ⟨n2, p2, t2, r2, sts2, by simpa using hl2, hlk2, hc2, ?_⟩
          rw [hrow]
          have : k + 1 + j = k + (j + 1) := by omega
          rw [this]
      · simp at h

/-- Claim C4: a row completed by `PopulateSubjects`, whose subject's role
occurs in the stream-type list of its subject type, gets its option menu
populated with exactly that list and initially selected at the role's
1-based position. -/
theorem populateSubjects_menu_spec (ns ps ts rs : List String) (i : Nat)
    (n p t r : String) (l : List String) (row : SubjectRow)
    (htuple : (zip4 ns ps ts rs)[i]? = some (n, p, t, r))
    (hlookup : List.lookup t StreamTypesPerSubjectType = some l)
    (_hrole : r ∈ l)
    (hrow : ((PopulateSubjects (some ns) (some ps) (some ts) (some rs)).1)[i]? =
      some row) :
    row.menuItems = l ∧ row.selectedIndex = l.indexOf r + 1 := by
  obtain ⟨n2, p2, t2, r2, sts, hl2, hlk2, hc2, hroweq⟩ :=
    buildRows_get (zip4 ns ps ts rs) 0 i row hrow
  rw [htuple, Option.some.injEq] at hl2
  cases hl2
  rw [hlookup, Option.some.injEq] at hlk2
  cases hlk2
  rw [hroweq]
  exact ⟨rfl, rfl⟩

/-- Witness for C4 at a concrete camera subject. -/
theorem populateSubjects_menu_spec_witness :
    ({ subjectName := "cam", subjectPath := "|cam1", subjectType := "Camera",
       layoutName := "ColumnLayoutRow_0",
       menuItems := ["Root Only", "Full Hierarchy", "Camera"],
       selectedIndex := 3 } : SubjectRow).menuItems =
      ["Root Only", "Full Hierarchy", "Camera"] ∧
    ({ subjectName := "cam", subjectPath := "|cam1", subjectType := "Camera",
       layoutName := "ColumnLayoutRow_0",
       menuItems := ["Root Only", "Full Hierarchy", "Camera"],
       selectedIndex := 3 } : SubjectRow).selectedIndex =
      (["Root Only", "Full Hierarchy", "Camera"] : List String).indexOf "Camera" + 1 :=
  populateSubjects_menu_spec ["cam"] ["|cam1"] ["Camera"] ["Camera"] 0
    "cam" "|cam1" "Camera" "Camera" ["Root Only", "Full Hierarchy", "Camera"]
    { subjectName := "cam", subjectPath := "|cam1", subjectType := "Camera",
      layoutName := "ColumnLayoutRow_0",
      menuItems := ["Root Only", "Full Hierarchy", "Camera"], selectedIndex := 3 }
    (by decide) (by decide) (by decide) (by decide)

/-- The length of a fourfold zip is the minimum of the four lengths. -/
theorem zip4_length {α β γ δ : Type} :
    ∀ (as : List α) (bs : List β) (cs : List γ) (ds : List δ),
      (zip4 as bs cs ds).length =
        min as.length (min bs.length (min cs.length ds.length)) := by
  intro as
  induction as with
  | nil =>
    intro bs cs ds
    simp [zip4]
  | cons a as ih =>
    intro bs cs ds
    cases bs with
    | nil => simp [zip4]
    | cons b bs =>
      cases cs with
      | nil => simp [zip4]
      | cons c cs =>
        cases ds with
        | nil => simp [zip4]
        | cons d ds =>
          simp only [zip4, List.length_cons, ih]
          omega

/-- Helper for C10: over tuples whose type is mapped and whose role is
present, the loop completes with one row per tuple. -/
theorem buildRows_total :
    ∀ (l : List (String × String × String × String)) (k : Nat),
      (∀ x ∈ l, ∃ sts,
        List.lookup x.2.2.1 StreamTypesPerSubjectType = some sts ∧
        sts.contains x.2.2.2 = true) →
      (buildRows k l).2 = none ∧ (buildRows k l).1.length = l.length := by
  intro l
  induction l with
  | nil =>
    intro k _
    simp [buildRows]
  | cons x rest ih =>
    intro k h
    obtain ⟨n, p, t, r⟩ := x
    obtain ⟨sts, hlk, hc⟩ := h (n, p, t, r) (by simp)
    have hrest := ih (k + 1) (fun y hy => h y (by simp [hy]))
    have hc2 : r ∈ sts := by simpa using hc
    simp [buildRows, hlk, hc2, hrest.1, hrest.2]

/-- Counterexample for C10 as stated: with an unmapped subject type the
loop raises `KeyError` and completes no row, so the number of created rows
is not the minimum of the four query lengths. -/
theorem populateSubjects_rowcount_counterexample :
    (PopulateSubjects (some ["A", "B"]) (some ["P", "Q"]) (some ["Unknown", "Prop"])
        (some ["Root Only", "Root Only"])).1.length ≠
      min (["A", "B"] : List String).length
        (min (["P", "Q"] : List String).length
          (min (["Unknown", "Prop"] : List String).length
            (["Root Only", "Root Only"] : List String).length)) := by
  decide

/-- Claim C10 (amended): no rows when the subject-paths query is `None`;
otherwise, provided each zipped tuple's type is mapped and its role is in
the mapped list, exactly `min` of the four lengths rows are created, the
row at position `i` carrying trailing index `i` in its layout name. -/
theorem populateSubjects_rowcount_amended :
    (∀ names types roles, PopulateSubjects names none types roles = ([], none)) ∧
    (∀ ns ps ts rs : List String,
      (∀ x ∈ zip4 ns ps ts rs, ∃ sts,
        List.lookup x.2.2.1 StreamTypesPerSubjectType = some sts ∧
        sts.contains x.2.2.2 = true) →
      (PopulateSubjects (some ns) (some ps) (some ts) (some rs)).2 = none ∧
      (PopulateSubjects (some ns) (some ps) (some ts) (some rs)).1.length =
        min ns.length (min ps.length (min ts.length rs.length)) ∧
      (∀ (i : Nat) (row : SubjectRow),
        ((PopulateSubjects (some ns) (some ps) (some ts) (some rs)).1)[i]? =
          some row →
        row.layoutName = "ColumnLayoutRow_" ++ toString i)) := by
  constructor
  · intro names types roles
    rfl
  · intro ns ps ts rs h
    have htot := buildRows_total (zip4 ns ps ts rs) 0 h
    refine ⟨htot.1, ?_, ?_⟩
    · show (buildRows 0 (zip4 ns ps ts rs)).1.length = _
      rw [htot.2, zip4_length]
    · intro i row hr
      obtain ⟨n, p, t, r, sts, hl, hlk, hc, hroweq⟩ :=
        buildRows_get (zip4 ns ps ts rs) 0 i row
          (show ((buildRows 0 (zip4 ns ps ts rs)).1)[i]? = some row from hr)
      rw [hroweq]
      simp

/-- Witness for the amended C10 at a concrete two-subject environment. -/
theorem populateSubjects_rowcount_amended_witness :
    (PopulateSubjects (some ["cam", "char"]) (some ["|cam1", "|char1"])
        (some ["Camera", "Character"]) (some ["Camera", "Root Only"])).1.length = 2 := by
  have hvalid : ∀ x ∈ zip4 ["cam", "char"] ["|cam1", "|char1"]
      ["Camera", "Character"] (["Camera", "Root Only"] : List String), ∃ sts,
      List.lookup x.2.2.1 StreamTypesPerSubjectType = some sts ∧
      sts.contains x.2.2.2 = true := by
    intro x hx
    simp only [zip4, List.mem_cons, List.not_mem_nil, or_false] at hx
    rcases hx with rfl | rfl
    · exact ⟨["Root Only", "Full Hierarchy", "Camera"], rfl, rfl⟩
    · exact ⟨["Root Only", "Full Hierarchy"], rfl, rfl⟩
  have h := populateSubjects_rowcount_amended.2 ["cam", "char"] ["|cam1", "|char1"]
    ["Camera", "Character"] ["Camera", "Root Only"] hvalid
  rw [h.2.1]
  decide

end MayaLiveLink
